import Mathlib

/-!
# Verification of the safety-stock calculation engine

Shallow embedding of `utils/safety_stock/calculations.py` and
`utils/safety_stock/demand_analysis.py` (repository `hongquyngo/safety-stock`).

Modelling conventions:
* Python floats are modelled as exact rationals (`ℚ`) where the code performs
  only field arithmetic, and as real numbers (`ℝ`) where `math.sqrt` or values
  derived from it appear.  Floating-point rounding error is not modelled.
* `round(x, 2)` is modelled as rounding to the nearest multiple of 1/100
  (`round2`).  Python rounds ties to even; no claim exercises a tie.
* Python `None` becomes `Option.none`; a Python function that can raise becomes
  a function into `Except String _`, the error message standing for the raised
  exception's message.
* The database is external: the SQL fetch inside `get_historical_demand` is
  replaced by an explicit argument `hist : List (ℤ × ℚ)` holding the rows the
  query would return — per-day `(day index, summed quantity)` pairs, one row
  per distinct day (SQL `GROUP BY DATE(...)`).  Day indices are measured from
  the start of the trailing window, so the window `[today − days_back, today]`
  is `[0, days_back]`.  The `reindex` is modelled as matching rows by calendar
  day; the source's `pd.date_range` timestamps additionally carry
  `datetime.now()`'s time-of-day while the frame index holds midnight dates,
  so at non-midnight runtimes the real reindex matches no row and zero-fills
  sampled days too — an idealisation noted here because the theorems below
  (candidate-day count, zero contribution of unmatched days, and the filter
  characterisation over the zero-filled series) hold under either semantics.
* `datetime.now()` inside `calculate_statistical` is modelled by an explicit
  `current_month` argument; the `calculated_at` timestamp the router stamps on
  results is real time and is not modelled (no claim mentions it).
-/

namespace SafetyStock

/-- Z-Score mapping for service levels (`Z_SCORE_MAP` in `calculations.py`),
in the insertion order of the Python dict literal. -/
def Z_SCORE_MAP : List (ℚ × ℚ) :=
  [(90, 1.28), (91, 1.34), (92, 1.41), (93, 1.48), (94, 1.56), (95, 1.65),
   (96, 1.75), (97, 1.88), (98, 2.05), (99, 2.33), (99.5, 2.58), (99.9, 3.09)]

/-- The keys of `Z_SCORE_MAP`, in iteration order. -/
def zKeys : List ℚ := Z_SCORE_MAP.map Prod.fst

/-- The values of `Z_SCORE_MAP`. -/
def zValues : List ℚ := Z_SCORE_MAP.map Prod.snd

/-- Dictionary lookup `Z_SCORE_MAP[k]`. -/
def zLookup (k : ℚ) : Option ℚ :=
  (Z_SCORE_MAP.find? (fun p => decide (p.1 = k))).map Prod.snd

/-- Python's `min(keys, key=lambda x: abs(x - s))` keeps the first element
attaining the minimum; it scans left to right replacing the candidate only on
a strictly smaller key value. -/
def closestAux (s : ℚ) : List ℚ → ℚ → ℚ
  | [], best => best
  | k :: ks, best => closestAux s ks (if |k - s| < |best - s| then k else best)

/-- `min(Z_SCORE_MAP.keys(), key=lambda x: abs(x - service_level_percent))`. -/
def closestLevel (s : ℚ) : ℚ :=
  match zKeys with
  | [] => 0
  | k :: ks => closestAux s ks k

/-- `get_z_score` (`calculations.py` lines 34–51): exact table hit, otherwise
the tabulated level closest in absolute difference. -/
def get_z_score (s : ℚ) : ℚ :=
  match zLookup s with
  | some z => z
  | none => (zLookup (closestLevel s)).getD 0

/-- `recommend_method` (`calculations.py` lines 560–604). -/
def recommend_method (demand_variability : ℚ) (lead_time_days : ℤ)
    (data_availability : ℤ) (criticality : String) : String :=
  if data_availability < 30 then "DAYS_OF_SUPPLY"
  else if criticality = "HIGH" then
    if data_availability ≥ 180 then "STATISTICAL" else "LEAD_TIME_BASED"
  else if demand_variability < 20 then "DAYS_OF_SUPPLY"
  else if demand_variability < 50 then
    if lead_time_days > 14 then "LEAD_TIME_BASED" else "DEMAND_PERCENTAGE"
  else
    if data_availability ≥ 90 then "STATISTICAL" else "LEAD_TIME_BASED"

/-- `suggest_calculation_method` (`demand_analysis.py` lines 148–173), the
lighter aggregator variant of the recommendation heuristic. -/
def suggest_calculation_method (cv_percent : ℚ) (data_points : ℤ) : String :=
  if data_points < 10 then "FIXED"
  else if cv_percent < 20 then "DAYS_OF_SUPPLY"
  else if cv_percent ≥ 20 ∧ data_points ≥ 30 then "LEAD_TIME_BASED"
  else "DAYS_OF_SUPPLY"

/-- `round(x, 2)`: round to the nearest multiple of 1/100 (Python resolves the
one divergent case, a tie, towards even; no tie arises in any claim). -/
def round2 {α : Type} [LinearOrderedField α] [FloorRing α] (x : α) : α :=
  (round (100 * x) : ℤ) / 100

/-! ## Historical demand aggregator (`get_historical_demand`, lines 56–166)

`hist` is the list of rows the SQL query returns: one `(day, quantity)` pair
per calendar day that had demand, days indexed from the window start. -/

/-- The complete calendar sequence the `pd.date_range(start = now − days_back,
end = now, freq = 'D')` reindex constructs: `days_back + 1` consecutive days. -/
def windowDays (days_back : ℕ) : List ℤ :=
  (List.range (days_back + 1)).map Int.ofNat

/-- The quantity the reindexed frame holds for day `d`: the fetched row's sum
when one exists, else the `fill_value` 0. -/
def dayQty (hist : List (ℤ × ℚ)) (d : ℤ) : ℚ :=
  ((hist.find? (fun p => decide (p.1 = d))).map Prod.snd).getD 0

/-- The zero-filled daily series (`df.reindex(date_range, fill_value=0)`). -/
def zeroFill (hist : List (ℤ × ℚ)) (days_back : ℕ) : List ℚ :=
  (windowDays days_back).map (dayQty hist)

/-- Insert into an ascending list, keeping it ascending. -/
def insertSorted (x : ℚ) : List ℚ → List ℚ
  | [] => [x]
  | y :: ys => if x ≤ y then x :: y :: ys else y :: insertSorted x ys

/-- Ascending insertion sort (the sorted order `Series.quantile` reads). -/
def sortQ : List ℚ → List ℚ
  | [] => []
  | x :: xs => insertSorted x (sortQ xs)

/-- `Series.quantile(q)` with pandas' default linear interpolation: sort the
values, take position `q * (n − 1)`, interpolate between the neighbours. -/
def quantileQ (xs : List ℚ) (q : ℚ) : ℚ :=
  if xs.length = 0 then 0
  else
    let v := sortQ xs
    let pos : ℚ := q * (xs.length - 1)
    let i : ℕ := (⌊pos⌋).toNat
    let lo := v.getD i 0
    let hi := v.getD (min (i + 1) (xs.length - 1)) 0
    lo + (hi - lo) * (pos - ⌊pos⌋)

/-- The daily series retained after the optional IQR outlier filter
(lines 133–141): when `exclude_outliers` and more than 10 points, keep the
days inside `[Q1 − 1.5·IQR, Q3 + 1.5·IQR]`; otherwise keep every day. -/
def retainedSeries (hist : List (ℤ × ℚ)) (days_back : ℕ)
    (exclude_outliers : Bool) : List ℚ :=
  let zf := zeroFill hist days_back
  if exclude_outliers ∧ zf.length > 10 then
    let q1 := quantileQ zf (1/4)
    let q3 := quantileQ zf (3/4)
    let iqr := q3 - q1
    let lower := q1 - 1.5 * iqr
    let upper := q3 + 1.5 * iqr
    zf.filter (fun q => decide (lower ≤ q ∧ q ≤ upper))
  else zf

/-- Mean of a daily series (`df['daily_demand'].mean()`). -/
def meanQ (xs : List ℚ) : ℚ := xs.sum / xs.length

/-- Sample standard deviation (`df['daily_demand'].std()`, pandas `ddof=1`).
pandas yields NaN for fewer than two points; NaN is not modelled and that
case (only reachable with `days_back = 0`) is mapped to 0. -/
noncomputable def sampleStd (xs : List ℚ) : ℝ :=
  if 2 ≤ xs.length then
    Real.sqrt ((xs.map (fun x => ((x : ℝ) - (meanQ xs : ℝ)) ^ 2)).sum
      / (xs.length - 1))
  else 0

/-- Maximum of a daily series (0 for the empty series, unreachable here). -/
def listMax : List ℚ → ℚ
  | [] => 0
  | x :: xs => xs.foldl max x

/-- Minimum of a daily series. -/
def listMin : List ℚ → ℚ
  | [] => 0
  | x :: xs => xs.foldl min x

/-- The dictionary `get_historical_demand` returns. -/
structure DemandStats where
  avg_daily_demand : ℚ
  std_deviation : ℝ
  max_demand : ℚ
  min_demand : ℚ
  coefficient_variation : ℝ
  data_points : ℕ

/-- `get_historical_demand` (lines 56–166) with the SQL fetch replaced by its
result `hist`.  An empty fetch short-circuits to the all-zero statistics
(line 109–118); otherwise the zero-filled, optionally outlier-filtered series
is summarised. -/
noncomputable def getHistoricalDemand (hist : List (ℤ × ℚ)) (days_back : ℕ)
    (exclude_outliers : Bool) : DemandStats :=
  if hist.isEmpty then ⟨0, 0, 0, 0, 0, 0⟩
  else
    let xs := retainedSeries hist days_back exclude_outliers
    let avg := meanQ xs
    let std := sampleStd xs
    { avg_daily_demand := round2 avg
      std_deviation := round2 std
      max_demand := listMax xs
      min_demand := listMin xs
      coefficient_variation :=
        if 0 < avg then round2 (std / (avg : ℝ) * 100) else 0
      data_points := xs.length }

/-! ## Calculation methods and router (`calculations.py` lines 171–557)

Each Python method takes `**params`; the embedding collects every keyword the
methods read into one record of optional fields.  A field the caller omitted is
`none`; a method's *required* positional parameter that is `none` produces the
`TypeError` Python raises on a missing argument, modelled as `Except.error`.
Scope identifiers (`product_id`, `entity_id`) gate the historical-demand
derivation; the data that derivation would fetch is the explicit `hist`
argument. -/

structure CalcParams where
  safety_stock_qty : Option ℝ := none
  safety_days : Option ℤ := none
  avg_daily_demand : Option ℝ := none
  demand_percentage : Option ℝ := none
  avg_period_demand : Option ℝ := none
  period_days : Option ℤ := none
  lead_time_days : Option ℤ := none
  service_level_percent : Option ℚ := none
  demand_std_deviation : Option ℝ := none
  lead_time_variability : Option ℤ := none
  min_stock_qty : Option ℝ := none
  max_stock_qty : Option ℝ := none
  product_id : Option ℤ := none
  entity_id : Option ℤ := none
  historical_days : Option ℕ := none
  review_period_days : Option ℤ := none
  seasonality_adjusted : Option Bool := none
  peak_months : Option (List ℤ) := none
  holding_cost_percent : Option ℝ := none
  ordering_cost : Option ℝ := none

/-- Python truthiness of an optional integer (`None` and `0` are falsy). -/
def truthyInt : Option ℤ → Prop
  | none => False
  | some v => v ≠ 0

instance (o : Option ℤ) : Decidable (truthyInt o) := by
  cases o with
  | none => exact isFalse (fun h => h)
  | some v => exact inferInstanceAs (Decidable (v ≠ 0))

/-- Python truthiness of an optional float (`None` and `0.0` are falsy). -/
def truthyReal : Option ℝ → Prop
  | none => False
  | some v => v ≠ 0

/-- The result dictionary a calculation method / the router returns.  Fields a
given method does not set are `none` — in Python, keys absent from the dict.
String fields holding f-string-formatted numeric traces are kept only when
they are constant text (no claim reads the formatted ones, recorded as
`none`).  The router's `calculated_at` timestamp is real time, not modelled. -/
structure CalcResult where
  method : String
  safety_stock_qty : ℝ
  formula_used : Option String := none
  calculation_notes : Option String := none
  reorder_point : Option ℝ := none
  reorder_qty : Option ℝ := none
  min_stock_qty : Option ℝ := none
  max_stock_qty : Option ℝ := none
  z_score : Option ℚ := none
  error : Option String := none

/-- `calculate_fixed` (lines 171–193): manual passthrough, no rounding, no
validation of the supplied quantity. -/
def calculate_fixed (p : CalcParams) : Except String CalcResult :=
  match p.safety_stock_qty with
  | none => .error "calculate_fixed missing required argument safety_stock_qty"
  | some q => .ok
      { method := "FIXED"
        safety_stock_qty := q
        formula_used := some "Manual Input"
        calculation_notes := some "Safety stock quantity manually specified" }

open scoped Classical in
/-- `calculate_days_of_supply` (lines 196–237). -/
noncomputable def calculate_days_of_supply (hist : List (ℤ × ℚ))
    (p : CalcParams) : Except String CalcResult :=
  match p.safety_days, p.avg_daily_demand with
  | none, _ => .error "calculate_days_of_supply missing required argument safety_days"
  | _, none => .error "calculate_days_of_supply missing required argument avg_daily_demand"
  | some sd, some avg0 =>
    let avg : ℝ :=
      if avg0 = 0 ∧ truthyInt p.product_id ∧ truthyInt p.entity_id then
        ((getHistoricalDemand hist (p.historical_days.getD 90) true).avg_daily_demand : ℝ)
      else avg0
    .ok { method := "DAYS_OF_SUPPLY", safety_stock_qty := round2 ((sd : ℝ) * avg) }

open scoped Classical in
/-- `calculate_demand_percentage` (lines 240–284). -/
noncomputable def calculate_demand_percentage (hist : List (ℤ × ℚ))
    (p : CalcParams) : Except String CalcResult :=
  match p.demand_percentage, p.avg_period_demand with
  | none, _ => .error "calculate_demand_percentage missing required argument demand_percentage"
  | _, none => .error "calculate_demand_percentage missing required argument avg_period_demand"
  | some pct, some apd0 =>
    let period : ℤ := p.period_days.getD 30
    let apd : ℝ :=
      if apd0 = 0 ∧ truthyInt p.product_id ∧ truthyInt p.entity_id then
        ((getHistoricalDemand hist (p.historical_days.getD 90) true).avg_daily_demand : ℝ)
          * (period : ℝ)
      else apd0
    .ok { method := "DEMAND_PERCENTAGE", safety_stock_qty := round2 (pct / 100 * apd) }

open scoped Classical in
/-- The formula part of `calculate_lead_time_based` (lines 327–359), after the
required arguments are bound and the demand statistics are resolved.  With
`lead_time_variability > 0` and a truthy average the combined-variability
formula `Z·√(LT·σ_D² + D²·σ_LT²)` is used, else the simple `Z·√LT·σ_D`.
`math.sqrt` of a negative argument and arithmetic on a still-`None` standard
deviation raise, becoming `Except.error`, in the evaluation order of the
Python expressions.  The returned dictionary carries no `reorder_point` key. -/
noncomputable def ltbCore (lt : ℤ) (slp : ℚ) (sigma avg : Option ℝ)
    (ltv : ℤ) : Except String CalcResult :=
  if 0 < ltv ∧ truthyReal avg then
    match sigma with
    | none => .error "TypeError: unsupported operand for pow: NoneType"
    | some s =>
      if (lt : ℝ) * s ^ 2 + (avg.getD 0) ^ 2 * ((ltv : ℤ) : ℝ) ^ 2 < 0 then
        .error "ValueError: math domain error"
      else .ok
        { method := "LEAD_TIME_BASED"
          safety_stock_qty := round2 ((get_z_score slp : ℝ) *
            Real.sqrt ((lt : ℝ) * s ^ 2 + (avg.getD 0) ^ 2 * ((ltv : ℤ) : ℝ) ^ 2))
          z_score := some (get_z_score slp) }
  else
    if lt < 0 then .error "ValueError: math domain error"
    else
      match sigma with
      | none => .error "TypeError: unsupported operand for mul: float and NoneType"
      | some s => .ok
          { method := "LEAD_TIME_BASED"
            safety_stock_qty :=
              round2 ((get_z_score slp : ℝ) * Real.sqrt (lt : ℝ) * s)
            z_score := some (get_z_score slp) }

open scoped Classical in
/-- `calculate_lead_time_based` (lines 287–359): required arguments, then —
when the demand figures are missing and both scope identifiers are truthy —
derivation of the missing statistics from one aggregator call (lines
314–325), then the formula core `ltbCore`. -/
noncomputable def calculate_lead_time_based (hist : List (ℤ × ℚ))
    (p : CalcParams) : Except String CalcResult :=
  match p.lead_time_days, p.service_level_percent with
  | none, _ => .error "calculate_lead_time_based missing required argument lead_time_days"
  | _, none => .error "calculate_lead_time_based missing required argument service_level_percent"
  | some lt, some slp =>
    let derive : Prop :=
      (p.demand_std_deviation = none ∨ p.avg_daily_demand = none)
        ∧ truthyInt p.product_id ∧ truthyInt p.entity_id
    let stats := getHistoricalDemand hist (p.historical_days.getD 90) true
    let sigma : Option ℝ :=
      match p.demand_std_deviation with
      | some s => some s
      | none => if derive then some stats.std_deviation else none
    let avg : Option ℝ :=
      match p.avg_daily_demand with
      | some a => some a
      | none => if derive then some (stats.avg_daily_demand : ℝ) else none
    ltbCore lt slp sigma avg (p.lead_time_variability.getD 0)

/-- `calculate_min_max` (lines 362–399). -/
noncomputable def calculate_min_max (p : CalcParams) : Except String CalcResult :=
  match p.min_stock_qty, p.max_stock_qty with
  | none, _ => .error "calculate_min_max missing required argument min_stock_qty"
  | _, none => .error "calculate_min_max missing required argument max_stock_qty"
  | some lo, some hi => .ok
      { method := "MIN_MAX"
        safety_stock_qty := round2 lo
        min_stock_qty := some lo
        max_stock_qty := some hi
        reorder_point := some lo
        reorder_qty := some (round2 (hi - lo)) }

open scoped Classical in
/-- `calculate_statistical` (lines 402–513).  The body of the `try` block is
`statBody`; any exception it raises (an `Except.error`) falls back to a lead-
time-based calculation built from the keyword arguments that are not named
parameters of `calculate_statistical` (so without the scope identifiers),
whose own failure propagates to the router. -/
noncomputable def statBody (hist : List (ℤ × ℚ)) (current_month : ℤ)
    (p : CalcParams) : Except String CalcResult :=
  let slp := p.service_level_percent.getD 95
  let lt := p.lead_time_days.getD 7
  let review := p.review_period_days.getD 7
  let stats := getHistoricalDemand hist (p.historical_days.getD 180) true
  if stats.data_points < 30 then
    calculate_lead_time_based hist
      { lead_time_days := some lt
        service_level_percent := some slp
        demand_std_deviation := some stats.std_deviation
        avg_daily_demand := some (stats.avg_daily_demand : ℝ) }
  else
    let protection := lt + review
    let z := get_z_score slp
    let avg_demand_protection : ℝ := (stats.avg_daily_demand : ℝ) * (protection : ℝ)
    if protection < 0 then .error "ValueError: math domain error"
    else
      let std_dev_protection : ℝ := stats.std_deviation * Real.sqrt (protection : ℝ)
      let seasonality_factor : ℝ :=
        if p.seasonality_adjusted.getD false = true
            ∧ current_month ∈ p.peak_months.getD [11, 12, 1] then 1.2 else 1
      let safety_stock_qty := (z : ℝ) * std_dev_protection * seasonality_factor
      let reorder_point := avg_demand_protection + safety_stock_qty
      let holding_cost : ℝ := p.holding_cost_percent.getD 20 / 100
      let ordering_cost : ℝ := p.ordering_cost.getD 50
      let annual_demand : ℝ := (stats.avg_daily_demand : ℝ) * 365
      if 0 < annual_demand ∧ 0 < holding_cost then
        if 2 * annual_demand * ordering_cost / holding_cost < 0 then
          .error "ValueError: math domain error"
        else .ok
          { method := "STATISTICAL"
            safety_stock_qty := round2 safety_stock_qty
            reorder_point := some (round2 reorder_point)
            reorder_qty := some
              (round2 (Real.sqrt (2 * annual_demand * ordering_cost / holding_cost)))
            z_score := some z }
      else .ok
        { method := "STATISTICAL"
          safety_stock_qty := round2 safety_stock_qty
          reorder_point := some (round2 reorder_point)
          reorder_qty := some (round2 ((stats.avg_daily_demand : ℝ) * 30))
          z_score := some z }

/-- `calculate_statistical` (lines 402–513): required scope identifiers, then
the `try` body with its exception fallback (lines 506–513). -/
noncomputable def calculate_statistical (hist : List (ℤ × ℚ)) (current_month : ℤ)
    (p : CalcParams) : Except String CalcResult :=
  match p.product_id, p.entity_id with
  | none, _ => .error "calculate_statistical missing required argument product_id"
  | _, none => .error "calculate_statistical missing required argument entity_id"
  | some _, some _ =>
    match statBody hist current_month p with
    | .ok r => .ok r
    | .error _ =>
      calculate_lead_time_based hist
        { lead_time_days := some (p.lead_time_days.getD 7)
          service_level_percent := some (p.service_level_percent.getD 95)
          demand_std_deviation := p.demand_std_deviation
          lead_time_variability := p.lead_time_variability
          avg_daily_demand := p.avg_daily_demand
          peak_months := p.peak_months
          holding_cost_percent := p.holding_cost_percent
          ordering_cost := p.ordering_cost }

/-- The router's `method_map` (lines 529–536). -/
noncomputable def methodMap (m : String) :
    Option (List (ℤ × ℚ) → ℤ → CalcParams → Except String CalcResult) :=
  if m = "FIXED" then some (fun _ _ p => calculate_fixed p)
  else if m = "DAYS_OF_SUPPLY" then some (fun h _ p => calculate_days_of_supply h p)
  else if m = "DEMAND_PERCENTAGE" then some (fun h _ p => calculate_demand_percentage h p)
  else if m = "LEAD_TIME_BASED" then some (fun h _ p => calculate_lead_time_based h p)
  else if m = "MIN_MAX" then some (fun _ _ p => calculate_min_max p)
  else if m = "STATISTICAL" then some (fun h cm p => calculate_statistical h cm p)
  else none

/-- `calculate_safety_stock` (lines 518–557): route to the method; an unknown
name yields the error dictionary naming it, an exception raised inside the
dispatched method is caught and converted to an error dictionary carrying the
exception's message. -/
noncomputable def calculate_safety_stock (m : String) (hist : List (ℤ × ℚ))
    (current_month : ℤ) (p : CalcParams) : CalcResult :=
  match methodMap m with
  | none =>
    { method := m, safety_stock_qty := 0
      error := some ("Unknown calculation method: " ++ m) }
  | some f =>
    match f hist current_month p with
    | .ok r => r
    | .error e => { method := m, safety_stock_qty := 0, error := some e }

/-! ## Lemmas about the Z-score lookup -/

lemma closestAux_mem (s : ℚ) (ks : List ℚ) (best : ℚ) :
    closestAux s ks best ∈ best :: ks := by
  induction ks generalizing best with
  | nil => simp [closestAux]
  | cons k ks ih =>
    simp only [closestAux]
    split
    · exact List.mem_cons_of_mem best (ih k)
    · rcases List.mem_cons.mp (ih best) with h | h
      · simp [h]
      · exact List.mem_cons_of_mem _ (List.mem_cons_of_mem _ h)

lemma closestAux_of_not_better (s : ℚ) (ks : List ℚ) (best : ℚ)
    (h : ∀ k ∈ ks, ¬ |k - s| < |best - s|) : closestAux s ks best = best := by
  induction ks with
  | nil => rfl
  | cons k ks ih =>
    simp only [closestAux]
    rw [if_neg (h k (List.mem_cons_self k ks))]
    exact ih (fun x hx => h x (List.mem_cons_of_mem k hx))

lemma closestAux_last (s : ℚ) (ks : List ℚ) (best k : ℚ)
    (h : ∀ x ∈ best :: ks, |k - s| < |x - s|) :
    closestAux s (ks ++ [k]) best = k := by
  induction ks generalizing best with
  | nil =>
    simp only [List.nil_append, closestAux]
    rw [if_pos (h best (List.mem_cons_self best []))]
  | cons a ks ih =>
    simp only [List.cons_append, closestAux]
    split
    · refine ih a (fun x hx => h x ?_)
      rcases List.mem_cons.mp hx with h1 | h1
      · rw [h1]; exact List.mem_cons_of_mem best (List.mem_cons_self a ks)
      · exact List.mem_cons_of_mem best (List.mem_cons_of_mem a h1)
    · refine ih best (fun x hx => h x ?_)
      rcases List.mem_cons.mp hx with h1 | h1
      · rw [h1]; exact List.mem_cons_self best (a :: ks)
      · exact List.mem_cons_of_mem best (List.mem_cons_of_mem a h1)

lemma zLookup_none (s : ℚ) (h : s ∉ zKeys) : zLookup s = none := by
  have hf : Z_SCORE_MAP.find? (fun p => decide (p.1 = s)) = none := by
    rw [List.find?_eq_none]
    intro x hx
    simp only [decide_eq_true_eq]
    intro hxs
    exact h (hxs ▸ List.mem_map_of_mem Prod.fst hx)
  simp [zLookup, hf]

lemma zKeys_ge (k : ℚ) (h : k ∈ zKeys) : 90 ≤ k := by
  fin_cases h <;> norm_num

lemma zKeys_le (k : ℚ) (h : k ∈ zKeys) : k ≤ 99.9 := by
  fin_cases h <;> norm_num

lemma zLookup_getD_mem : ∀ k ∈ zKeys, (zLookup k).getD 0 ∈ zValues := by
  intro k hk
  fin_cases hk <;> norm_num [zLookup, Z_SCORE_MAP, List.find?, zValues]

lemma closestLevel_mem (s : ℚ) : closestLevel s ∈ zKeys := by
  have h : closestAux s [91, 92, 93, 94, 95, 96, 97, 98, 99, 99.5, 99.9] 90
      ∈ (90 : ℚ) :: [91, 92, 93, 94, 95, 96, 97, 98, 99, 99.5, 99.9] :=
    closestAux_mem s _ 90
  exact h

lemma closestLevel_of_lt (s : ℚ) (hs : s < 90) : closestLevel s = 90 := by
  show closestAux s [91, 92, 93, 94, 95, 96, 97, 98, 99, 99.5, 99.9] 90 = 90
  refine closestAux_of_not_better s _ 90 (fun k hk => ?_)
  have hk1 : (91 : ℚ) ≤ k := by fin_cases hk <;> norm_num
  rw [abs_of_pos (by linarith), abs_of_pos (by linarith)]
  linarith

lemma closestLevel_of_gt (s : ℚ) (hs : 99.9 < s) : closestLevel s = 99.9 := by
  show closestAux s [91, 92, 93, 94, 95, 96, 97, 98, 99, 99.5, 99.9] 90 = 99.9
  have happ : ([91, 92, 93, 94, 95, 96, 97, 98, 99, 99.5, 99.9] : List ℚ)
      = [91, 92, 93, 94, 95, 96, 97, 98, 99, 99.5] ++ [99.9] := rfl
  rw [happ]
  refine closestAux_last s _ 90 99.9 (fun x hx => ?_)
  have hx1 : x ≤ 99.5 := by fin_cases hx <;> norm_num
  rw [abs_of_neg (by linarith), abs_of_neg (by linarith)]
  linarith

lemma get_z_score_mem (s : ℚ) : get_z_score s ∈ zValues := by
  unfold get_z_score
  cases hz : zLookup s with
  | some z =>
    obtain ⟨pr, hpr, hsnd⟩ := Option.map_eq_some'.mp hz
    exact hsnd ▸ List.mem_map_of_mem Prod.snd (List.mem_of_find?_eq_some hpr)
  | none =>
    exact zLookup_getD_mem _ (closestLevel_mem s)

/-- C10: `get_z_score` is total — every real service level, including values
outside the documented [50, 99.9] domain, yields one of the twelve tabulated
Z-scores; below 90 it snaps to 90 (1.28), above 99.9 to 99.9 (3.09). -/
theorem get_z_score_total (s : ℚ) :
    get_z_score s ∈ zValues ∧
      (s < 90 → get_z_score s = 1.28) ∧
      (99.9 < s → get_z_score s = 3.09) := by
  refine ⟨get_z_score_mem s, fun hs => ?_, fun hs => ?_⟩
  · have hnot : s ∉ zKeys := fun hmem => absurd (zKeys_ge s hmem) (by linarith)
    unfold get_z_score
    rw [zLookup_none s hnot, closestLevel_of_lt s hs]
    norm_num [zLookup, Z_SCORE_MAP, List.find?]
  · have hnot : s ∉ zKeys := fun hmem => absurd (zKeys_le s hmem) (by linarith)
    unfold get_z_score
    rw [zLookup_none s hnot, closestLevel_of_gt s hs]
    norm_num [zLookup, Z_SCORE_MAP, List.find?]

/-- Witness for C10 at concrete inputs 80 (below the table) and 100 (above). -/
theorem get_z_score_total_witness :
    get_z_score 80 = 1.28 ∧ get_z_score 100 = 3.09 :=
  ⟨(get_z_score_total 80).2.1 (by norm_num),
   (get_z_score_total 100).2.2 (by norm_num)⟩

/-! ## Method recommendation (C2) -/

/-- C2 counterexample: `recommend_method(cv=60, lead_time=5, sample_count=10,
criticality='MEDIUM')` returns `'DAYS_OF_SUPPLY'`, not `'FIXED'` as the claim
states. -/
theorem recommend_method_low_data_counterexample :
    recommend_method 60 5 10 "MEDIUM" = "DAYS_OF_SUPPLY" ∧
      recommend_method 60 5 10 "MEDIUM" ≠ "FIXED" := by
  constructor <;> decide

/-- C2 amended: below the insufficient-data threshold the recommendation is
insensitive to the other inputs, but `recommend_method` (threshold 30) answers
`'DAYS_OF_SUPPLY'` while only the lighter variant `suggest_calculation_method`
(threshold 10) answers `'FIXED'`. -/
theorem recommend_method_insufficient_data :
    (∀ (cv : ℚ) (lt n : ℤ) (crit : String), n < 30 →
        recommend_method cv lt n crit = "DAYS_OF_SUPPLY") ∧
      (∀ (cv : ℚ) (n : ℤ), n < 10 →
        suggest_calculation_method cv n = "FIXED") := by
  constructor
  · intro cv lt n crit h
    unfold recommend_method
    rw [if_pos h]
  · intro cv n h
    unfold suggest_calculation_method
    rw [if_pos h]

/-- Witness for C2 (amended) at the claim's concrete input. -/
theorem recommend_method_insufficient_data_witness :
    recommend_method 60 5 10 "MEDIUM" = "DAYS_OF_SUPPLY" ∧
      suggest_calculation_method 60 5 = "FIXED" :=
  ⟨recommend_method_insufficient_data.1 60 5 10 "MEDIUM" (by norm_num),
   recommend_method_insufficient_data.2 60 5 (by norm_num)⟩

/-! ## Aggregator claims (C5, C6) -/

/-- C5 counterexample: on the empty sample collection the aggregator
short-circuits to the all-zero statistics — it reports 0 data points even
with outlier removal disabled, not the `days_back + 1 = 91` candidate days
the zero-fill invariant promises. -/
theorem zero_fill_empty_counterexample :
    (getHistoricalDemand [] 90 false).data_points = 0 ∧
      (getHistoricalDemand [] 90 false).data_points ≠ 91 := by
  constructor <;> simp [getHistoricalDemand]

/-- C5 amended: for every *nonempty* sample collection confined to the
`days_back`-day window the aggregator considers exactly `days_back + 1`
candidate days before outlier removal, a day with no matching sample
contributing exactly 0; the empty collection instead short-circuits. -/
theorem zero_fill_invariant (hist : List (ℤ × ℚ)) (days_back : ℕ)
    (hne : hist ≠ [])
    (_hconf : ∀ p ∈ hist, 0 ≤ p.1 ∧ p.1 ≤ (days_back : ℤ)) :
    (getHistoricalDemand hist days_back false).data_points = days_back + 1 ∧
      (∀ d : ℤ, (∀ q : ℚ, (d, q) ∉ hist) → dayQty hist d = 0) := by
  constructor
  · have hni : hist.isEmpty = false := by simpa [List.isEmpty_iff] using hne
    simp [getHistoricalDemand, hni, retainedSeries, zeroFill, windowDays]
  · intro d hd
    have hf : hist.find? (fun p => decide (p.1 = d)) = none := by
      rw [List.find?_eq_none]
      intro x hx
      simp only [decide_eq_true_eq]
      intro h1
      apply hd x.2
      have hde : (d, x.2) = x := by rw [← h1]
      rw [hde]
      exact hx
    simp [dayQty, hf]

/-- Witness for C5 (amended): one sample of 5 units on day 0 of a 90-day
window gives 91 candidate days, and a day with no sample contributes 0. -/
theorem zero_fill_invariant_witness :
    (getHistoricalDemand [((0 : ℤ), (5 : ℚ))] 90 false).data_points = 90 + 1 ∧
      dayQty [((0 : ℤ), (5 : ℚ))] 7 = 0 :=
  ⟨(zero_fill_invariant [((0 : ℤ), (5 : ℚ))] 90 (by simp) (by norm_num)).1,
   (zero_fill_invariant [((0 : ℤ), (5 : ℚ))] 90 (by simp) (by norm_num)).2 7
     (fun q hq => by simp at hq)⟩

lemma zeroFill_nonneg (hist : List (ℤ × ℚ)) (days_back : ℕ)
    (h : ∀ p ∈ hist, 0 ≤ p.2) :
    ∀ x ∈ zeroFill hist days_back, 0 ≤ x := by
  intro x hx
  simp only [zeroFill, List.mem_map] at hx
  obtain ⟨d, _, rfl⟩ := hx
  unfold dayQty
  cases hf : hist.find? (fun p => decide (p.1 = d)) with
  | none => simp
  | some pr =>
    simpa [hf] using h pr (List.mem_of_find?_eq_some hf)

/-- C6: with nonnegative sample quantities (demand is never negative, and
zero-filled days contribute 0) the outlier stage drops exactly the days whose
quantity falls outside `[max(0, Q1 − 1.5·IQR), Q3 + 1.5·IQR]` when
`exclude_outliers` is set and the zero-filled series has more than 10 points
— the code's unclamped lower bound `Q1 − 1.5·IQR` keeps the same days — and
drops no day otherwise. -/
theorem outlier_filter_spec (hist : List (ℤ × ℚ)) (days_back : ℕ)
    (hq : ∀ p ∈ hist, 0 ≤ p.2) :
    (10 < (zeroFill hist days_back).length →
        retainedSeries hist days_back true =
          (zeroFill hist days_back).filter (fun q =>
            decide (max 0 (quantileQ (zeroFill hist days_back) (1/4)
                - 1.5 * (quantileQ (zeroFill hist days_back) (3/4)
                  - quantileQ (zeroFill hist days_back) (1/4))) ≤ q
              ∧ q ≤ quantileQ (zeroFill hist days_back) (3/4)
                + 1.5 * (quantileQ (zeroFill hist days_back) (3/4)
                  - quantileQ (zeroFill hist days_back) (1/4))))) ∧
      retainedSeries hist days_back false = zeroFill hist days_back ∧
      (¬ 10 < (zeroFill hist days_back).length →
        retainedSeries hist days_back true = zeroFill hist days_back) := by
  refine ⟨fun hlen => ?_, ?_, fun hlen => ?_⟩
  · unfold retainedSeries
    rw [if_pos ⟨rfl, hlen⟩]
    refine List.filter_congr (fun x hx => ?_)
    have hx0 : 0 ≤ x := zeroFill_nonneg hist days_back hq x hx
    have hiff :
        (quantileQ (zeroFill hist days_back) (1/4)
            - 1.5 * (quantileQ (zeroFill hist days_back) (3/4)
              - quantileQ (zeroFill hist days_back) (1/4)) ≤ x
          ∧ x ≤ quantileQ (zeroFill hist days_back) (3/4)
            + 1.5 * (quantileQ (zeroFill hist days_back) (3/4)
              - quantileQ (zeroFill hist days_back) (1/4))) ↔
        (max 0 (quantileQ (zeroFill hist days_back) (1/4)
            - 1.5 * (quantileQ (zeroFill hist days_back) (3/4)
              - quantileQ (zeroFill hist days_back) (1/4))) ≤ x
          ∧ x ≤ quantileQ (zeroFill hist days_back) (3/4)
            + 1.5 * (quantileQ (zeroFill hist days_back) (3/4)
              - quantileQ (zeroFill hist days_back) (1/4))) := by
      constructor
      · exact fun h => ⟨max_le (by linarith) h.1, h.2⟩
      · exact fun h => ⟨le_trans (le_max_right _ _) h.1, h.2⟩
    exact decide_eq_decide.mpr hiff
  · unfold retainedSeries
    rw [if_neg (by simp)]
  · unfold retainedSeries
    rw [if_neg (fun hc => hlen hc.2)]

/-- Witness for C6: a 12-day zero-filled window (one sample of 100 on day 0)
triggers the more-than-10-points outlier branch. -/
theorem outlier_filter_spec_witness :
    retainedSeries [((0 : ℤ), (100 : ℚ))] 11 true =
      (zeroFill [((0 : ℤ), (100 : ℚ))] 11).filter (fun q =>
        decide (max 0 (quantileQ (zeroFill [((0 : ℤ), (100 : ℚ))] 11) (1/4)
            - 1.5 * (quantileQ (zeroFill [((0 : ℤ), (100 : ℚ))] 11) (3/4)
              - quantileQ (zeroFill [((0 : ℤ), (100 : ℚ))] 11) (1/4))) ≤ q
          ∧ q ≤ quantileQ (zeroFill [((0 : ℤ), (100 : ℚ))] 11) (3/4)
            + 1.5 * (quantileQ (zeroFill [((0 : ℤ), (100 : ℚ))] 11) (3/4)
              - quantileQ (zeroFill [((0 : ℤ), (100 : ℚ))] 11) (1/4)))) :=
  (outlier_filter_spec [((0 : ℤ), (100 : ℚ))] 11 (by norm_num)).1
    (by simp [zeroFill, windowDays])

/-! ## FIXED passthrough (C4) and the router (C8) -/

/-- C4 counterexample: `calculate_safety_stock('FIXED', {safety_stock_qty: -5})`
returns a success result that passes the negative quantity through — the
claimed error for negative quantities does not occur. -/
theorem fixed_negative_counterexample :
    (calculate_safety_stock "FIXED" [] 0 { safety_stock_qty := some (-5) }).error
        = none ∧
      (calculate_safety_stock "FIXED" [] 0
        { safety_stock_qty := some (-5) }).safety_stock_qty = -5 := by
  constructor <;> simp [calculate_safety_stock, methodMap, calculate_fixed]

/-- C4 amended: a supplied quantity — negative included — is passed through as
a success result with formula description exactly "Manual Input"; an error
result occurs only when the quantity is missing (the raised `TypeError` is
converted by the router). -/
theorem fixed_passthrough (hist : List (ℤ × ℚ)) (cm : ℤ) (p : CalcParams) :
    (∀ q, p.safety_stock_qty = some q →
        calculate_safety_stock "FIXED" hist cm p =
          { method := "FIXED", safety_stock_qty := q
            formula_used := some "Manual Input"
            calculation_notes := some "Safety stock quantity manually specified" }) ∧
      (p.safety_stock_qty = none →
        ∃ e, (calculate_safety_stock "FIXED" hist cm p).error = some e) := by
  constructor
  · intro q hq
    simp [calculate_safety_stock, methodMap, calculate_fixed, hq]
  · intro h
    refine ⟨"calculate_fixed missing required argument safety_stock_qty", ?_⟩
    simp [calculate_safety_stock, methodMap, calculate_fixed, h]

/-- Witness for C4 (amended): the spec's own test vector 42.0, and the
missing-quantity error. -/
theorem fixed_passthrough_witness :
    calculate_safety_stock "FIXED" [] 0 { safety_stock_qty := some 42 } =
      { method := "FIXED", safety_stock_qty := 42
        formula_used := some "Manual Input"
        calculation_notes := some "Safety stock quantity manually specified" } ∧
    ∃ e, (calculate_safety_stock "FIXED" [] 0 {}).error = some e :=
  ⟨(fixed_passthrough [] 0 _).1 42 rfl, (fixed_passthrough [] 0 {}).2 rfl⟩

/-- C8: the router is a total function into result values — an unknown method
name yields an error result whose message names the method, an exception
(`Except.error`) raised by a dispatched method is caught and converted into an
error result carrying its message, and a normal return is passed through. -/
theorem router_never_raises (m : String) (hist : List (ℤ × ℚ)) (cm : ℤ)
    (p : CalcParams) :
    (methodMap m = none →
        calculate_safety_stock m hist cm p =
          { method := m, safety_stock_qty := 0
            error := some ("Unknown calculation method: " ++ m) }) ∧
      (∀ f e, methodMap m = some f → f hist cm p = .error e →
        calculate_safety_stock m hist cm p =
          { method := m, safety_stock_qty := 0, error := some e }) ∧
      (∀ f r, methodMap m = some f → f hist cm p = .ok r →
        calculate_safety_stock m hist cm p = r) := by
  refine ⟨fun h => ?_, fun f e hf he => ?_, fun f r hf hr => ?_⟩
  · simp [calculate_safety_stock, h]
  · simp [calculate_safety_stock, hf, he]
  · simp [calculate_safety_stock, hf, hr]

/-- Witness for C8 at the spec's test vector: `'BOGUS'` is routed to an error
result naming the unknown method, with no exception escaping. -/
theorem router_never_raises_witness :
    calculate_safety_stock "BOGUS" [] 0 {} =
      { method := "BOGUS", safety_stock_qty := 0
        error := some ("Unknown calculation method: " ++ "BOGUS") } :=
  (router_never_raises "BOGUS" [] 0 {}).1 (by simp [methodMap])

/-! ## Evaluation lemmas for `calculate_lead_time_based` -/

lemma router_dispatch_ltb (hist : List (ℤ × ℚ)) (cm : ℤ) (p : CalcParams)
    (r : CalcResult) (h : calculate_lead_time_based hist p = .ok r) :
    calculate_safety_stock "LEAD_TIME_BASED" hist cm p = r := by
  simp [calculate_safety_stock, methodMap, h]

lemma router_dispatch_ltb_error (hist : List (ℤ × ℚ)) (cm : ℤ) (p : CalcParams)
    (e : String) (h : calculate_lead_time_based hist p = .error e) :
    calculate_safety_stock "LEAD_TIME_BASED" hist cm p =
      { method := "LEAD_TIME_BASED", safety_stock_qty := 0, error := some e } := by
  simp [calculate_safety_stock, methodMap, h]

lemma ite_error {α : Type} (C : Prop) {inst : Decidable C}
    (x y : Except String α) (hx : ∃ e, x = .error e) (hy : ∃ e, y = .error e) :
    ∃ e, (if C then x else y) = .error e := by
  by_cases h : C
  · rw [if_pos h]; exact hx
  · rw [if_neg h]; exact hy

lemma ltbCore_simple (lt : ℤ) (s : ℚ) (sd : ℝ) (avg : Option ℝ) (ltv : ℤ)
    (hlt0 : 0 ≤ lt) (hltv : ltv ≤ 0) :
    ltbCore lt s (some sd) avg ltv = .ok
      { method := "LEAD_TIME_BASED"
        safety_stock_qty := round2 ((get_z_score s : ℝ) * Real.sqrt (lt : ℝ) * sd)
        z_score := some (get_z_score s) } := by
  unfold ltbCore
  rw [if_neg (fun hc => absurd hc.1 (not_lt.mpr hltv))]
  rw [if_neg (not_lt.mpr hlt0)]

lemma ltbCore_combined (lt : ℤ) (s : ℚ) (sd a : ℝ) (l : ℤ)
    (hlt0 : 0 ≤ lt) (ha : a ≠ 0) (hl : 0 < l) :
    ltbCore lt s (some sd) (some a) l = .ok
      { method := "LEAD_TIME_BASED"
        safety_stock_qty := round2 ((get_z_score s : ℝ) *
          Real.sqrt ((lt : ℝ) * sd ^ 2 + a ^ 2 * ((l : ℤ) : ℝ) ^ 2))
        z_score := some (get_z_score s) } := by
  unfold ltbCore
  rw [if_pos ⟨hl, show truthyReal (some a) from ha⟩]
  simp only [Option.getD_some]
  rw [if_neg (not_lt.mpr (add_nonneg
    (mul_nonneg (by exact_mod_cast hlt0) (sq_nonneg sd))
    (mul_nonneg (sq_nonneg a) (sq_nonneg _))))]

lemma ltbCore_none_error (lt : ℤ) (s : ℚ) (avg : Option ℝ) (ltv : ℤ) :
    ∃ e, ltbCore lt s none avg ltv = .error e := by
  unfold ltbCore
  exact ite_error _ _ _ ⟨_, rfl⟩ (ite_error _ _ _ ⟨_, rfl⟩ ⟨_, rfl⟩)

/-- On the simple branch (non-positive lead-time variability), a negative
lead time makes `math.sqrt` raise its domain error, whatever the standard
deviation resolved to. -/
lemma ltbCore_neg_error (lt : ℤ) (s : ℚ) (sigma avg : Option ℝ) (ltv : ℤ)
    (hneg : lt < 0) (hltv : ltv ≤ 0) :
    ltbCore lt s sigma avg ltv = .error "ValueError: math domain error" := by
  unfold ltbCore
  rw [if_neg (fun hc => absurd hc.1 (not_lt.mpr hltv))]
  rw [if_pos hneg]

/-- With a supplied standard deviation and a non-positive (in particular the
default 0) lead-time variability, the simple branch computes
`round2 (Z · √LT · σ)`. -/
lemma ltb_simple_eval (hist : List (ℤ × ℚ)) (p : CalcParams) (lt : ℤ) (s : ℚ)
    (sd : ℝ) (hlt : p.lead_time_days = some lt) (hlt0 : 0 ≤ lt)
    (hs : p.service_level_percent = some s)
    (hstd : p.demand_std_deviation = some sd)
    (hltv : p.lead_time_variability.getD 0 ≤ 0) :
    calculate_lead_time_based hist p = .ok
      { method := "LEAD_TIME_BASED"
        safety_stock_qty := round2 ((get_z_score s : ℝ) * Real.sqrt (lt : ℝ) * sd)
        z_score := some (get_z_score s) } := by
  rw [calculate_lead_time_based.eq_def, hlt, hs]
  simp only [hstd]
  exact ltbCore_simple lt s sd _ _ hlt0 hltv

/-- With positive lead-time variability and a truthy average daily demand, the
combined-variability branch computes `round2 (Z · √(LT·σ² + D²·σLT²))`. -/
lemma ltb_combined_eval (hist : List (ℤ × ℚ)) (p : CalcParams) (lt : ℤ) (s : ℚ)
    (sd a : ℝ) (l : ℤ) (hlt : p.lead_time_days = some lt) (hlt0 : 0 ≤ lt)
    (hs : p.service_level_percent = some s)
    (hstd : p.demand_std_deviation = some sd)
    (havg : p.avg_daily_demand = some a) (ha : a ≠ 0)
    (hltv : p.lead_time_variability = some l) (hl : 0 < l) :
    calculate_lead_time_based hist p = .ok
      { method := "LEAD_TIME_BASED"
        safety_stock_qty := round2 ((get_z_score s : ℝ) *
          Real.sqrt ((lt : ℝ) * sd ^ 2 + a ^ 2 * ((l : ℤ) : ℝ) ^ 2))
        z_score := some (get_z_score s) } := by
  rw [calculate_lead_time_based.eq_def, hlt, hs]
  simp only [hstd, havg, hltv, Option.getD_some]
  exact ltbCore_combined lt s sd a l hlt0 ha hl

/-- With a negative lead time and the lead-time variability at a non-positive
value (in particular its default 0), `calculate_lead_time_based` raises the
`math.sqrt` domain error regardless of the other parameters. -/
lemma ltb_neg_leadtime_eval (hist : List (ℤ × ℚ)) (p : CalcParams) (lt : ℤ)
    (s : ℚ) (hlt : p.lead_time_days = some lt)
    (hs : p.service_level_percent = some s) (hneg : lt < 0)
    (hltv : p.lead_time_variability.getD 0 ≤ 0) :
    calculate_lead_time_based hist p = .error "ValueError: math domain error" := by
  rw [calculate_lead_time_based.eq_def, hlt, hs]
  exact ltbCore_neg_error _ _ _ _ _ hneg hltv

/-- When the standard deviation is neither supplied nor derivable (no truthy
scope identifiers), every branch of `calculate_lead_time_based` raises. -/
lemma ltb_missing_std_error (hist : List (ℤ × ℚ)) (p : CalcParams)
    (hstd : p.demand_std_deviation = none) (hpid : p.product_id = none)
    (hlt : ∃ lt, p.lead_time_days = some lt)
    (hs : ∃ s, p.service_level_percent = some s) :
    ∃ e, calculate_lead_time_based hist p = .error e := by
  obtain ⟨lt, hlt⟩ := hlt
  obtain ⟨s, hs⟩ := hs
  rw [calculate_lead_time_based.eq_def, hlt, hs]
  simp only [hstd, hpid, truthyInt, false_and, and_false, if_false]
  exact ltbCore_none_error _ _ _ _

/-! ## Numeric evaluation helpers -/

lemma z95 : get_z_score 95 = 1.65 := by
  norm_num [get_z_score, zLookup, Z_SCORE_MAP, List.find?]

lemma sqrt_nine : Real.sqrt (((9 : ℤ) : ℝ)) = 3 := by
  rw [show (((9 : ℤ) : ℝ)) = (3 : ℝ) ^ 2 by norm_num]
  exact Real.sqrt_sq (by norm_num)

lemma round2_simple_nine : round2 (((1.65 : ℚ) : ℝ) * 3 * 2) = 9.9 := by
  simp only [round2]
  rw [show (100 : ℝ) * (((1.65 : ℚ) : ℝ) * 3 * 2) = ((990 : ℤ) : ℝ) by
    push_cast; norm_num]
  rw [round_intCast]
  norm_num

lemma round2_combined_ten : round2 (((1.65 : ℚ) : ℝ) * 10) = 16.5 := by
  simp only [round2]
  rw [show (100 : ℝ) * (((1.65 : ℚ) : ℝ) * 10) = ((1650 : ℤ) : ℝ) by
    push_cast; norm_num]
  rw [round_intCast]
  norm_num

lemma sqrt_combined_hundred :
    Real.sqrt (((9 : ℤ) : ℝ) * (2 : ℝ) ^ 2 + (8 : ℝ) ^ 2 * (((1 : ℤ) : ℝ)) ^ 2)
      = 10 := by
  rw [show ((9 : ℤ) : ℝ) * (2 : ℝ) ^ 2 + (8 : ℝ) ^ 2 * (((1 : ℤ) : ℝ)) ^ 2
      = (10 : ℝ) ^ 2 by push_cast; norm_num]
  exact Real.sqrt_sq (by norm_num)

/-! ## Lead-time-based claims (C1, C3, C7, C9) -/

/-- C1 counterexample: `lead_time_days = 0` with a supplied standard deviation
is *not* rejected — the router returns a success result with quantity 0. -/
theorem ltb_zero_leadtime_counterexample :
    (calculate_safety_stock "LEAD_TIME_BASED" [] 0
        { lead_time_days := some 0, service_level_percent := some 95
          demand_std_deviation := some 2 }).error = none ∧
      (calculate_safety_stock "LEAD_TIME_BASED" [] 0
        { lead_time_days := some 0, service_level_percent := some 95
          demand_std_deviation := some 2 }).safety_stock_qty = 0 := by
  have hd := ltb_simple_eval []
    ({ lead_time_days := some 0, service_level_percent := some 95
       demand_std_deviation := some 2 } : CalcParams) 0 95 2 rfl le_rfl rfl rfl
    (by simp)
  rw [router_dispatch_ltb [] 0 _ _ hd]
  refine ⟨rfl, ?_⟩
  show round2 ((get_z_score 95 : ℝ) * Real.sqrt (((0 : ℤ) : ℝ)) * 2) = 0
  rw [show (((0 : ℤ) : ℝ)) = (0 : ℝ) by norm_num, Real.sqrt_zero]
  simp [round2]

/-- C1 amended: `lead_time_days ≤ 0` is not validated; a `LEAD_TIME_BASED`
call with it produces an error result in two ways, both via a raised
exception the router converts: a *negative* lead time makes `math.sqrt` raise
its domain error (on the simple branch, lead-time variability at its default
or non-positive, whatever the standard deviation), and a missing,
non-derivable `demand_std_deviation` makes the arithmetic on `None` raise —
the spec's example `{lead_time_days: 0, service_level_percent: 95}` errs this
second way.  `lead_time_days = 0` with a supplied standard deviation is
accepted with quantity 0 (see the counterexample). -/
theorem ltb_nonpositive_leadtime_error (hist : List (ℤ × ℚ)) (cm : ℤ)
    (p : CalcParams) (lt : ℤ)
    (hlt : p.lead_time_days = some lt)
    (hs : ∃ s, p.service_level_percent = some s) :
    (lt < 0 → p.lead_time_variability.getD 0 ≤ 0 →
        ∃ e, (calculate_safety_stock "LEAD_TIME_BASED" hist cm p).error = some e) ∧
      (lt ≤ 0 → p.demand_std_deviation = none → p.product_id = none →
        ∃ e, (calculate_safety_stock "LEAD_TIME_BASED" hist cm p).error = some e) := by
  obtain ⟨s, hs⟩ := hs
  constructor
  · intro hneg hltv
    refine ⟨"ValueError: math domain error", ?_⟩
    rw [router_dispatch_ltb_error hist cm p _
      (ltb_neg_leadtime_eval hist p lt s hlt hs hneg hltv)]
  · intro _ hstd hpid
    obtain ⟨e, he⟩ := ltb_missing_std_error hist p hstd hpid ⟨lt, hlt⟩ ⟨s, hs⟩
    exact ⟨e, by rw [router_dispatch_ltb_error hist cm p e he]⟩

/-- Witness for C1 (amended): a negative lead time with a supplied standard
deviation errs, and so does the spec's own example input. -/
theorem ltb_nonpositive_leadtime_error_witness :
    (∃ e, (calculate_safety_stock "LEAD_TIME_BASED" [] 0
        { lead_time_days := some (-1), service_level_percent := some 95
          demand_std_deviation := some 2 }).error = some e) ∧
      (∃ e, (calculate_safety_stock "LEAD_TIME_BASED" [] 0
        { lead_time_days := some 0, service_level_percent := some 95 }).error
          = some e) :=
  ⟨(ltb_nonpositive_leadtime_error [] 0
      ({ lead_time_days := some (-1), service_level_percent := some 95
         demand_std_deviation := some 2 } : CalcParams) (-1) rfl ⟨95, rfl⟩).1
      (by norm_num) (by simp),
   (ltb_nonpositive_leadtime_error [] 0
      ({ lead_time_days := some 0, service_level_percent := some 95 } : CalcParams)
      0 rfl ⟨95, rfl⟩).2 le_rfl rfl rfl⟩

lemma ltbCore_ok_no_reorder (lt : ℤ) (s : ℚ) (sigma avg : Option ℝ)
    (ltv : ℤ) (r : CalcResult) (h : ltbCore lt s sigma avg ltv = .ok r) :
    r.reorder_point = none := by
  rw [ltbCore.eq_def] at h
  repeat' split at h
  all_goals first
    | exact Except.noConfusion h
    | (injection h with h2; subst h2; rfl)

lemma ltb_ok_no_reorder (hist : List (ℤ × ℚ)) (p : CalcParams)
    (r : CalcResult) (h : calculate_lead_time_based hist p = .ok r) :
    r.reorder_point = none := by
  rw [calculate_lead_time_based.eq_def] at h
  cases hlt : p.lead_time_days with
  | none => rw [hlt] at h; simp at h
  | some lt =>
    cases hs : p.service_level_percent with
    | none => rw [hlt, hs] at h; simp at h
    | some s =>
      rw [hlt, hs] at h
      exact ltbCore_ok_no_reorder _ _ _ _ _ r h

/-- C3 counterexample: a `LEAD_TIME_BASED` call that supplies
`average_daily_demand` succeeds with *no* `reorder_point` in the result — in
particular not the claimed `10 × 9 + 9.9 = 99.9`. -/
theorem ltb_reorder_point_counterexample :
    (calculate_safety_stock "LEAD_TIME_BASED" [] 0
        { lead_time_days := some 9, service_level_percent := some 95
          demand_std_deviation := some 2, avg_daily_demand := some 10 }).error
        = none ∧
      (calculate_safety_stock "LEAD_TIME_BASED" [] 0
        { lead_time_days := some 9, service_level_percent := some 95
          demand_std_deviation := some 2, avg_daily_demand := some 10 }).reorder_point
        = none ∧
      (calculate_safety_stock "LEAD_TIME_BASED" [] 0
        { lead_time_days := some 9, service_level_percent := some 95
          demand_std_deviation := some 2, avg_daily_demand := some 10 }).reorder_point
        ≠ some ((10 : ℝ) * 9 + 9.9) := by
  have hd := ltb_simple_eval []
    ({ lead_time_days := some 9, service_level_percent := some 95
       demand_std_deviation := some 2, avg_daily_demand := some 10 } : CalcParams)
    9 95 2 rfl (by norm_num) rfl rfl (by simp)
  rw [router_dispatch_ltb [] 0 _ _ hd]
  exact ⟨rfl, rfl, by simp⟩

/-- C3 amended: the `LEAD_TIME_BASED` result dictionary never contains a
`reorder_point`, whether the calculation succeeds (with or without a supplied
average daily demand) or errs; only `MIN_MAX` and `STATISTICAL` set one. -/
theorem ltb_no_reorder_point (hist : List (ℤ × ℚ)) (cm : ℤ) (p : CalcParams) :
    (calculate_safety_stock "LEAD_TIME_BASED" hist cm p).reorder_point = none := by
  have hmm : methodMap "LEAD_TIME_BASED" =
      some (fun h _ q => calculate_lead_time_based h q) := by simp [methodMap]
  rw [calculate_safety_stock.eq_def, hmm]
  cases hd : calculate_lead_time_based hist p with
  | ok r => simpa [hd] using ltb_ok_no_reorder hist p r hd
  | error e => simp [hd]

/-- C7 counterexample: with a supplied standard deviation but also a positive
`lead_time_variability` and a nonzero supplied average, the quantity is
computed by the combined formula (16.5 here), not `Z·√LT·σ` rounded (9.9). -/
theorem ltb_simple_formula_counterexample :
    (calculate_safety_stock "LEAD_TIME_BASED" [] 0
        { lead_time_days := some 9, service_level_percent := some 95
          demand_std_deviation := some 2, avg_daily_demand := some 8
          lead_time_variability := some 1 }).error = none ∧
      (calculate_safety_stock "LEAD_TIME_BASED" [] 0
        { lead_time_days := some 9, service_level_percent := some 95
          demand_std_deviation := some 2, avg_daily_demand := some 8
          lead_time_variability := some 1 }).safety_stock_qty ≠
        round2 ((get_z_score 95 : ℝ) * Real.sqrt (((9 : ℤ) : ℝ)) * 2) := by
  have hd := ltb_combined_eval []
    ({ lead_time_days := some 9, service_level_percent := some 95
       demand_std_deviation := some 2, avg_daily_demand := some 8
       lead_time_variability := some 1 } : CalcParams)
    9 95 2 8 1 rfl (by norm_num) rfl rfl rfl (by norm_num) rfl (by norm_num)
  rw [router_dispatch_ltb [] 0 _ _ hd]
  refine ⟨rfl, ?_⟩
  show round2 ((get_z_score 95 : ℝ) *
      Real.sqrt (((9 : ℤ) : ℝ) * (2 : ℝ) ^ 2 + (8 : ℝ) ^ 2 * (((1 : ℤ) : ℝ)) ^ 2)) ≠ _
  rw [z95, sqrt_nine, sqrt_combined_hundred, round2_simple_nine,
    round2_combined_ten]
  norm_num

/-- C7 amended: with a supplied `demand_std_deviation` and
`lead_time_variability` at its default 0 (or non-positive), the quantity is
`Z(service_level) · √lead_time_days · σ` rounded to 2 decimals, and the
parameter trace records the resolved Z-score. -/
theorem ltb_simple_formula (hist : List (ℤ × ℚ)) (cm : ℤ) (p : CalcParams)
    (lt : ℤ) (s : ℚ) (sd : ℝ)
    (hlt : p.lead_time_days = some lt) (hlt0 : 0 ≤ lt)
    (hs : p.service_level_percent = some s)
    (hstd : p.demand_std_deviation = some sd)
    (hltv : p.lead_time_variability.getD 0 ≤ 0) :
    (calculate_safety_stock "LEAD_TIME_BASED" hist cm p).error = none ∧
      (calculate_safety_stock "LEAD_TIME_BASED" hist cm p).safety_stock_qty =
        round2 ((get_z_score s : ℝ) * Real.sqrt (lt : ℝ) * sd) ∧
      (calculate_safety_stock "LEAD_TIME_BASED" hist cm p).z_score =
        some (get_z_score s) := by
  rw [router_dispatch_ltb hist cm p _
    (ltb_simple_eval hist p lt s sd hlt hlt0 hs hstd hltv)]
  exact ⟨rfl, rfl, rfl⟩

/-- Witness for C7 (amended) at the spec's test vector: lead time 9, service
level 95, σ = 2 give `z = 1.65` and quantity `1.65 × 3 × 2 = 9.9`. -/
theorem ltb_simple_formula_witness :
    (calculate_safety_stock "LEAD_TIME_BASED" [] 0
        { lead_time_days := some 9, service_level_percent := some 95
          demand_std_deviation := some 2 }).error = none ∧
      (calculate_safety_stock "LEAD_TIME_BASED" [] 0
        { lead_time_days := some 9, service_level_percent := some 95
          demand_std_deviation := some 2 }).safety_stock_qty = 9.9 ∧
      (calculate_safety_stock "LEAD_TIME_BASED" [] 0
        { lead_time_days := some 9, service_level_percent := some 95
          demand_std_deviation := some 2 }).z_score = some 1.65 := by
  have h := ltb_simple_formula [] 0
    ({ lead_time_days := some 9, service_level_percent := some 95
       demand_std_deviation := some 2 } : CalcParams)
    9 95 2 rfl (by norm_num) rfl rfl (by simp)
  refine ⟨h.1, ?_, ?_⟩
  · rw [h.2.1, z95, sqrt_nine, round2_simple_nine]
  · rw [h.2.2, z95]

/-- C9: with positive `lead_time_variability` and a nonzero supplied average,
the combined formula `Z·√(LT·σ_D² + D²·σ_LT²)` is used; with the parameter at
its default (absent, hence 0), the simple formula `Z·√LT·σ_D` is used. -/
theorem ltb_variability_formula (hist : List (ℤ × ℚ)) (cm : ℤ) (p : CalcParams)
    (lt : ℤ) (s : ℚ) (sd : ℝ)
    (hlt : p.lead_time_days = some lt) (hlt0 : 0 ≤ lt)
    (hs : p.service_level_percent = some s)
    (hstd : p.demand_std_deviation = some sd) :
    (∀ (a : ℝ) (l : ℤ), p.avg_daily_demand = some a → a ≠ 0 →
        p.lead_time_variability = some l → 0 < l →
        (calculate_safety_stock "LEAD_TIME_BASED" hist cm p).error = none ∧
          (calculate_safety_stock "LEAD_TIME_BASED" hist cm p).safety_stock_qty =
            round2 ((get_z_score s : ℝ) *
              Real.sqrt ((lt : ℝ) * sd ^ 2 + a ^ 2 * ((l : ℤ) : ℝ) ^ 2))) ∧
      (p.lead_time_variability = none →
        (calculate_safety_stock "LEAD_TIME_BASED" hist cm p).error = none ∧
          (calculate_safety_stock "LEAD_TIME_BASED" hist cm p).safety_stock_qty =
            round2 ((get_z_score s : ℝ) * Real.sqrt (lt : ℝ) * sd)) := by
  constructor
  · intro a l havg ha hltv hl
    rw [router_dispatch_ltb hist cm p _
      (ltb_combined_eval hist p lt s sd a l hlt hlt0 hs hstd havg ha hltv hl)]
    exact ⟨rfl, rfl⟩
  · intro hnone
    rw [router_dispatch_ltb hist cm p _
      (ltb_simple_eval hist p lt s sd hlt hlt0 hs hstd (by simp [hnone]))]
    exact ⟨rfl, rfl⟩

/-- Witness for C9: lead time 9, σ = 2, average 8, variability 1 give
`1.65 × √(9·4 + 64·1) = 1.65 × 10 = 16.5`. -/
theorem ltb_variability_formula_witness :
    (calculate_safety_stock "LEAD_TIME_BASED" [] 0
        { lead_time_days := some 9, service_level_percent := some 95
          demand_std_deviation := some 2, avg_daily_demand := some 8
          lead_time_variability := some 1 }).safety_stock_qty = 16.5 := by
  have h := (ltb_variability_formula [] 0
    ({ lead_time_days := some 9, service_level_percent := some 95
       demand_std_deviation := some 2, avg_daily_demand := some 8
       lead_time_variability := some 1 } : CalcParams)
    9 95 2 rfl (by norm_num) rfl rfl).1 8 1 rfl (by norm_num) rfl (by norm_num)
  rw [h.2, z95, sqrt_combined_hundred, round2_combined_ten]

end SafetyStock
